import Mathlib

/-!
Shallow embedding of the `superk_mono` package: register-level wrappers for a
SuperK Fianium laser (`superk_laser.py`), an HRS500M monochromator
(`hrs_monochromator.py`) and a Thorlabs FW212CNEB ND filter wheel
(`thorlabs_nd_filter_wheel.py`).

The external device connection (`self.connection`) is modelled as an explicit
state: a register store (for the laser) or a set of device fields (for the
other two instruments), together with a "store behaviour" function describing
what raw value the device actually keeps when a value is written (the device
may clamp or round), and a log of the write commands issued.  Every wrapper
method becomes a pure function from the device state to a result paired with
the new device state; Python exceptions become `Except` errors that also carry
the device state at the moment of the raise, so "no write was issued before
the error" is expressible as log preservation.

Python floats are embedded as exact rationals; Python `int(x)` truncation
toward zero is `pyInt`, and Python `round(x, 3)` (round-half-to-even) is
`round3`.
-/

namespace SuperKMono

/-- Python `int(x)` on a (rational-valued) float: truncation toward zero. -/
def pyInt (q : ℚ) : ℤ := if 0 ≤ q then ⌊q⌋ else ⌈q⌉

/-- Python `round(x)` to an integer: round half to even (banker's rounding). -/
def pyRound (q : ℚ) : ℤ :=
  let f := ⌊q⌋
  let r := q - (f : ℚ)
  if r < 1/2 then f
  else if 1/2 < r then f + 1
  else if f % 2 = 0 then f else f + 1

/-- Python `round(x, 3)`: round to 3 decimal places, half to even. -/
def round3 (q : ℚ) : ℚ := (pyRound (q * 1000) : ℚ) / 1000

namespace Laser

/-! ### Register IDs (`class ID60`, `class ID88` in `superk_laser.py`) -/

/-- `SuperK.DEVICE_ID` -/
def DEVICE_ID : ℕ := 0x0F

namespace ID60

def INLET_TEMPERATURE : ℕ := 0x11
def EMISSION : ℕ := 0x30
def MODE : ℕ := 0x31
def INTERLOCK : ℕ := 0x32
def WATCHDOG_INTERVAL : ℕ := 0x36
def POWER_LEVEL : ℕ := 0x37
def CURRENT_LEVEL : ℕ := 0x38
def NIM_DELAY : ℕ := 0x39
def SERIAL_NUMBER : ℕ := 0x65
def STATUS_BITS : ℕ := 0x66
def SYSTEM_TYPE : ℕ := 0x6B
def USER_TEXT : ℕ := 0x6C

end ID60

namespace ID88

def INLET_TEMPERATURE : ℕ := 0x11
def EMISSION : ℕ := 0x30
def MODE : ℕ := 0x31
def INTERLOCK : ℕ := 0x32
def DATETIME : ℕ := 0x33
def WATCHDOG_INTERVAL : ℕ := 0x36
def CURRENT_LEVEL : ℕ := 0x37
def STATUS_BITS : ℕ := 0x66
def ERROR_CODE : ℕ := 0x67
def USER_TEXT : ℕ := 0x8D

end ID88

/-- The two supported mainboard module types (`MODULE_TYPE_0x60`,
`MODULE_TYPE_0x88`); exactly one register table is selected at construction. -/
inductive ModuleType where
  | M0x60
  | M0x88
  deriving DecidableEq, Repr

/-- `self.ID.EMISSION` for the selected register table. -/
def idEMISSION : ModuleType → ℕ
  | .M0x60 => ID60.EMISSION
  | .M0x88 => ID88.EMISSION

/-- `self.ID.MODE` for the selected register table. -/
def idMODE : ModuleType → ℕ
  | .M0x60 => ID60.MODE
  | .M0x88 => ID88.MODE

/-- `self.ID.INTERLOCK` for the selected register table. -/
def idINTERLOCK : ModuleType → ℕ
  | .M0x60 => ID60.INTERLOCK
  | .M0x88 => ID88.INTERLOCK

/-- `self.ID.CURRENT_LEVEL` for the selected register table
(note the two tables give it different addresses). -/
def idCURRENT_LEVEL : ModuleType → ℕ
  | .M0x60 => ID60.CURRENT_LEVEL
  | .M0x88 => ID88.CURRENT_LEVEL

/-- `class OperatingModes(IntEnum)` in `superk_laser.py`. -/
inductive OperatingModes where
  | CONSTANT_CURRENT
  | CONSTANT_POWER
  | MODULATED_CURRENT
  | MODULATED_POWER
  | POWER_LOCK
  deriving DecidableEq, Repr

/-- The integer value of each `OperatingModes` member. -/
def OperatingModes.value : OperatingModes → ℕ
  | .CONSTANT_CURRENT => 0
  | .CONSTANT_POWER => 1
  | .MODULATED_CURRENT => 2
  | .MODULATED_POWER => 3
  | .POWER_LOCK => 4

/-- `OperatingModes(v)`: the enum member with value `v`, if any
(the Python constructor raises `ValueError` otherwise). -/
def OperatingModes.ofValue : ℕ → Option OperatingModes
  | 0 => some .CONSTANT_CURRENT
  | 1 => some .CONSTANT_POWER
  | 2 => some .MODULATED_CURRENT
  | 3 => some .MODULATED_POWER
  | 4 => some .POWER_LOCK
  | _ => none

/-- Errors raised by the laser wrapper (each `connection.raise_exception` /
`ValueError` site in `superk_laser.py`). -/
inductive Err where
  | serialMismatch (reported expected : String)
  | unsupportedModuleType (t : ℕ)
  | interlockInvalid (status : ℕ)
  | cannotSetMode (m : OperatingModes)
  | powerLevelsUnsupported
  | levelOutOfRange (p lo hi : ℚ)
  | invalidModeValue (v : ℕ)
  deriving DecidableEq, Repr

/-- The device back-end seen through `self.connection`: the register contents,
the device's own transformation of a written raw value (it may clamp or
round — "echo-back, not the input, is authoritative"), and the log of write
commands issued so far (pairs of register ID and raw written value). -/
structure Device where
  regs : ℕ → ℕ
  store : ℕ → ℕ → ℕ
  log : List (ℕ × ℕ)

/-- A device that stores every written value faithfully. -/
def Device.Faithful (d : Device) : Prop := ∀ r v, d.store r v = v

/-- `connection.register_read_u16`. -/
def registerReadU16 (d : Device) (reg : ℕ) : ℕ := d.regs reg % 65536

/-- `connection.register_read_u8`. -/
def registerReadU8 (d : Device) (reg : ℕ) : ℕ := d.regs reg % 256

/-- `connection.register_write_u8`: the raw byte is handed to the device,
which stores its own transformation of it; the write is logged. -/
def registerWriteU8 (d : Device) (reg : ℕ) (v : ℤ) : Device :=
  let raw := (v % 256).toNat
  { regs := fun r => if r = reg then d.store reg raw else d.regs r
    store := d.store
    log := d.log ++ [(reg, raw)] }

/-- `connection.register_write_read_u16`: write, then read the register back
and return its (device-stored) value together with the new state. -/
def registerWriteReadU16 (d : Device) (reg : ℕ) (v : ℤ) : ℕ × Device :=
  let raw := (v % 65536).toNat
  let d' : Device :=
    { regs := fun r => if r = reg then d.store reg raw else d.regs r
      store := d.store
      log := d.log ++ [(reg, raw)] }
  (d'.regs reg % 65536, d')

/-! ### SuperK methods -/

/-- `SuperK.__init__` (construction-time selection): the serial-number check
and the module-type dispatch that selects the register table. -/
def superKInit (reportedSerial recordSerial : String) (moduleType : ℕ) :
    Except Err ModuleType :=
  if reportedSerial ≠ "" ∧ reportedSerial ≠ recordSerial then
    .error (.serialMismatch reportedSerial recordSerial)
  else if moduleType = 0x60 then .ok .M0x60
  else if moduleType = 0x88 then .ok .M0x88
  else .error (.unsupportedModuleType moduleType)

/-- `self.MODES` as selected in `SuperK.__init__` for each module type. -/
def MODES : ModuleType → List (String × OperatingModes)
  | .M0x60 =>
      [("Constant current", .CONSTANT_CURRENT),
       ("Current modulation", .MODULATED_CURRENT),
       ("Power lock", .POWER_LOCK)]
  | .M0x88 =>
      [("Constant current", .CONSTANT_CURRENT),
       ("Power lock", .POWER_LOCK)]

/-- `SuperK.get_operating_modes`. -/
def getOperatingModes (mt : ModuleType) : List (String × OperatingModes) :=
  MODES mt

/-- `SuperK.ensure_interlock_ok`. -/
def ensureInterlockOk (mt : ModuleType) (d : Device) :
    Except Err Bool × Device :=
  let status := registerReadU16 d (idINTERLOCK mt)
  if status = 2 then (.ok true, d)
  else if status = 1 then
    let p := registerWriteReadU16 d (idINTERLOCK mt) 1
    if p.1 = 2 then (.ok true, p.2)
    else (.error (.interlockInvalid p.1), p.2)
  else (.error (.interlockInvalid status), d)

/-- `SuperK.get_operating_mode`: module type 0x60 reads the mode register as
u16, module type 0x88 as u8; the value is converted through the
`OperatingModes` constructor. -/
def getOperatingMode (mt : ModuleType) (d : Device) : Except Err OperatingModes :=
  let v := match mt with
    | .M0x60 => registerReadU16 d (idMODE mt)
    | .M0x88 => registerReadU8 d (idMODE mt)
  match OperatingModes.ofValue v with
  | some m => .ok m
  | none => .error (.invalidModeValue v)

/-- `SuperK.is_constant_current_mode`. -/
def isConstantCurrentMode (mt : ModuleType) (d : Device) : Except Err Bool :=
  (getOperatingMode mt d).map (fun m => m = OperatingModes.CONSTANT_CURRENT)

/-- `SuperK.is_modulated_current_mode`. -/
def isModulatedCurrentMode (mt : ModuleType) (d : Device) : Except Err Bool :=
  (getOperatingMode mt d).map (fun m => m = OperatingModes.MODULATED_CURRENT)

/-- `SuperK.is_emission_on`: `bool(register_read_u8(EMISSION))`. -/
def isEmissionOn (mt : ModuleType) (d : Device) : Bool :=
  registerReadU8 d (idEMISSION mt) ≠ 0

/-- `SuperK.emission`: write 3 (on) or 0 (off) to the emission register.
(The transport-level `OSError` branch is outside this embedding.) -/
def emission (mt : ModuleType) (d : Device) (turnOn : Bool) : Device :=
  let state : ℤ := if turnOn then 3 else 0
  registerWriteU8 d (idEMISSION mt) state

/-- `SuperK.set_operating_mode`: force emission off, write the mode register,
and raise unless the write-response equals the requested value. -/
def setOperatingMode (mt : ModuleType) (d : Device) (mode : OperatingModes) :
    Except Err Unit × Device :=
  let d1 := emission mt d false
  let p := registerWriteReadU16 d1 (idMODE mt) (mode.value : ℤ)
  if p.1 ≠ mode.value then (.error (.cannotSetMode mode), p.2)
  else (.ok (), p.2)

/-- `SuperK.enable_modulated_current_mode`. -/
def enableModulatedCurrentMode (mt : ModuleType) (d : Device) :
    Except Err Unit × Device :=
  setOperatingMode mt d .MODULATED_CURRENT

/-- `SuperK.get_power_level`: unsupported on module type 0x88; otherwise the
register value scaled by 0.1. -/
def getPowerLevel (mt : ModuleType) (d : Device) : Except Err ℚ :=
  if mt = .M0x88 then .error .powerLevelsUnsupported
  else .ok ((registerReadU16 d ID60.POWER_LEVEL : ℚ) * (1/10))

/-- `SuperK.get_current_level`: the register value scaled by 0.1. -/
def getCurrentLevel (mt : ModuleType) (d : Device) : ℚ :=
  (registerReadU16 d (idCURRENT_LEVEL mt) : ℚ) * (1/10)

/-- `SuperK.get_feedback_level` = `get_current_level`. -/
def getFeedbackLevel (mt : ModuleType) (d : Device) : ℚ :=
  getCurrentLevel mt d

/-- `SuperK.set_power_level`: refuse on module type 0x88; validate the range;
write `int(percentage * 10)` and return the echoed value scaled by 0.1. -/
def setPowerLevel (mt : ModuleType) (d : Device) (percentage : ℚ) :
    Except Err ℚ × Device :=
  if mt = .M0x88 then (.error .powerLevelsUnsupported, d)
  else if percentage < 0 ∨ 100 < percentage then
    (.error (.levelOutOfRange percentage 0 100), d)
  else
    let p := registerWriteReadU16 d ID60.POWER_LEVEL (pyInt (percentage * 10))
    (.ok ((p.1 : ℚ) * (1/10)), p.2)

/-- `SuperK._set_current_level`: validate the range; write
`int(percentage * 10)` and return the echoed value scaled by 0.1. -/
def setCurrentLevelRaw (mt : ModuleType) (d : Device) (percentage : ℚ) :
    Except Err ℚ × Device :=
  if percentage < 0 ∨ 100 < percentage then
    (.error (.levelOutOfRange percentage 0 100), d)
  else
    let p := registerWriteReadU16 d (idCURRENT_LEVEL mt) (pyInt (percentage * 10))
    (.ok ((p.1 : ℚ) * (1/10)), p.2)

/-- `SuperK.set_current_level` (logs, then delegates to `_set_current_level`). -/
def setCurrentLevel (mt : ModuleType) (d : Device) (percentage : ℚ) :
    Except Err ℚ × Device :=
  setCurrentLevelRaw mt d percentage

/-- `SuperK.set_feedback_level` (logs, then delegates to `_set_current_level`). -/
def setFeedbackLevel (mt : ModuleType) (d : Device) (percentage : ℚ) :
    Except Err ℚ × Device :=
  setCurrentLevelRaw mt d percentage

end Laser

namespace Mono

/-! ### HRS500M monochromator (`hrs_monochromator.py`) -/

/-- `class Slit(IntEnum)`: the two slit ports. -/
def FRONT_ENTRANCE : ℕ := 2

/-- `Slit.FRONT_EXIT`. -/
def FRONT_EXIT : ℕ := 3

/-- The vendor commands the wrapper can issue to the device (each
`self.connection.set_*` call site); reads are not logged. -/
inductive Cmd where
  | setSlitWidth (port : ℕ) (um : ℤ)
  | setWavelengthNm (nm : ℚ)
  | setFilterPosition (pos : ℤ)
  | setGrating (pos : ℤ)
  deriving DecidableEq, Repr

/-- Errors raised by the monochromator wrapper: the
`connection.raise_exception` sites and the `assert actual == ...`
statements (a failing Python `assert` raises `AssertionError`). -/
inductive Err where
  | slitWidthOutOfRange (um : ℤ)
  | wavelengthOutOfRange (nm : ℚ)
  | filterPositionOutOfRange (pos : ℤ)
  | gratingPositionOutOfRange (pos : ℤ)
  | assertFailed
  deriving DecidableEq, Repr

/-- The monochromator device back-end: current readable state, the device's
behaviour on each kind of set command (what state it actually takes), and the
log of commands issued. -/
structure Device where
  slitWidth : ℕ → ℤ
  slitStore : ℕ → ℤ → ℤ
  wavelength : ℚ
  wavelengthAfterMove : ℚ → ℚ
  filterPos : ℤ
  filterStore : ℤ → ℤ
  grating : ℤ
  gratingStore : ℤ → ℤ
  log : List Cmd

/-- `HRSMonochromator._set_slit_width`: validate the range, then issue
`set_mono_slit_width` (the device stores its own transformation). -/
def setSlitWidthRaw (d : Device) (port : ℕ) (um : ℤ) : Except Err Unit × Device :=
  if ¬ (10 ≤ um ∧ um ≤ 3000) then (.error (.slitWidthOutOfRange um), d)
  else
    (.ok (),
     { d with
        slitWidth := fun p => if p = port then d.slitStore port um else d.slitWidth p
        log := d.log ++ [.setSlitWidth port um] })

/-- `HRSMonochromator.get_front_entrance_slit_width`. -/
def getFrontEntranceSlitWidth (d : Device) : ℤ := d.slitWidth FRONT_ENTRANCE

/-- `HRSMonochromator.get_front_exit_slit_width`. -/
def getFrontExitSlitWidth (d : Device) : ℤ := d.slitWidth FRONT_EXIT

/-- `HRSMonochromator.set_front_entrance_slit_width`: set, read back, and
`assert actual == width`; the read-back value is returned. -/
def setFrontEntranceSlitWidth (d : Device) (um : ℤ) : Except Err ℤ × Device :=
  let width := um
  match setSlitWidthRaw d FRONT_ENTRANCE width with
  | (.error e, d') => (.error e, d')
  | (.ok _, d') =>
    let actual := getFrontEntranceSlitWidth d'
    if actual = width then (.ok actual, d') else (.error .assertFailed, d')

/-- `HRSMonochromator.set_front_exit_slit_width`: set, read back, and
`assert actual == width`; the read-back value is returned. -/
def setFrontExitSlitWidth (d : Device) (um : ℤ) : Except Err ℤ × Device :=
  let width := um
  match setSlitWidthRaw d FRONT_EXIT width with
  | (.error e, d') => (.error e, d')
  | (.ok _, d') =>
    let actual := getFrontExitSlitWidth d'
    if actual = width then (.ok actual, d') else (.error .assertFailed, d')

/-- `HRSMonochromator.get_wavelength`. -/
def getWavelength (d : Device) : ℚ := d.wavelength

/-- `HRSMonochromator.set_wavelength`: round the request to 3 decimal places,
validate the rounded value, transmit it, and return the device's own
encoder-reported wavelength (no equality assertion). -/
def setWavelength (d : Device) (nm : ℚ) : Except Err ℚ × Device :=
  let requested := round3 nm
  if ¬ (-2800 ≤ requested ∧ requested ≤ 2800) then
    (.error (.wavelengthOutOfRange nm), d)
  else
    let d' : Device :=
      { d with
          wavelength := d.wavelengthAfterMove requested
          log := d.log ++ [.setWavelengthNm requested] }
    (.ok (getWavelength d'), d')

/-- `HRSMonochromator.get_filter_position`. -/
def getFilterPosition (d : Device) : ℤ := d.filterPos

/-- `HRSMonochromator.set_filter_position`: validate `[1, 6]`, issue the move,
read back and `assert actual == pos`. -/
def setFilterPosition (d : Device) (position : ℤ) : Except Err ℤ × Device :=
  let pos := position
  if ¬ (1 ≤ pos ∧ pos ≤ 6) then (.error (.filterPositionOutOfRange position), d)
  else
    let d' : Device :=
      { d with
          filterPos := d.filterStore pos
          log := d.log ++ [.setFilterPosition pos] }
    let actual := getFilterPosition d'
    if actual = pos then (.ok actual, d') else (.error .assertFailed, d')

/-- `HRSMonochromator.get_grating_position`. -/
def getGratingPosition (d : Device) : ℤ := d.grating

/-- `HRSMonochromator.set_grating_position`: validate `[1, 3]`, issue the
move, read back and `assert actual == pos`. -/
def setGratingPosition (d : Device) (position : ℤ) : Except Err ℤ × Device :=
  let pos := position
  if ¬ (1 ≤ pos ∧ pos ≤ 3) then (.error (.gratingPositionOutOfRange position), d)
  else
    let d' : Device :=
      { d with
          grating := d.gratingStore pos
          log := d.log ++ [.setGrating pos] }
    let actual := getGratingPosition d'
    if actual = pos then (.ok actual, d') else (.error .assertFailed, d')

end Mono

namespace Wheel

/-! ### Thorlabs FW212CNEB ND filter wheel (`thorlabs_nd_filter_wheel.py`) -/

/-- Errors raised by the filter-wheel wrapper (both `ValueError` sites). -/
inductive Err where
  | cardinalityMismatch (mapLen maxPos : ℕ)
  | positionOutOfRange (pos : ℤ) (maxPos : ℕ)
  deriving DecidableEq, Repr

/-- The wheel device back-end: position count reported at construction,
current position, the position the device actually reaches on a move
command, and the log of issued move commands. -/
structure Device where
  positionCount : ℕ
  pos : ℤ
  posAfterMove : ℤ → ℤ
  log : List ℤ

/-- The hardcoded default OD map in `FW212CNEB.__init__`
(position 1 is empty, hence `none`). -/
def defaultFilters : List (ℕ × Option ℚ) :=
  [(1, none), (2, some (1/10)), (3, some (2/10)), (4, some (3/10)),
   (5, some (4/10)), (6, some (5/10)), (7, some (6/10)), (8, some 1),
   (9, some (13/10)), (10, some 2), (11, some 3), (12, some 4)]

/-- The wrapper state after a successful construction. -/
structure FW212CNEB where
  maxPosition : ℕ
  odMap : List (ℕ × Option ℚ)
  deriving DecidableEq, Repr

/-- `FW212CNEB.__init__`: query the device's position count; take the
user-defined filter map if non-empty (`if not filters:` falls back to the
default); fail when the map's size differs from the position count. -/
def fwInit (d : Device) (userFilters : List (ℕ × Option ℚ)) :
    Except Err FW212CNEB :=
  let maxPos := d.positionCount
  let filters := if userFilters = [] then defaultFilters else userFilters
  if filters.length ≠ maxPos then
    .error (.cardinalityMismatch filters.length maxPos)
  else
    .ok { maxPosition := maxPos, odMap := filters }

/-- `FW212CNEB.get_position`. -/
def getPosition (d : Device) : ℤ := d.pos

/-- `FW212CNEB.set_position`: validate `[1, max_position]`, issue the move,
and return the device's resulting position (no equality assertion). -/
def setPosition (w : FW212CNEB) (d : Device) (position : ℤ) :
    Except Err ℤ × Device :=
  let pos := position
  if ¬ (1 ≤ pos ∧ pos ≤ (w.maxPosition : ℤ)) then
    (.error (.positionOutOfRange position w.maxPosition), d)
  else
    let d' : Device :=
      { d with pos := d.posAfterMove position, log := d.log ++ [position] }
    (.ok (getPosition d'), d')

end Wheel

/-! ## Helper lemmas -/

theorem pyInt_natCast (k : ℕ) : pyInt (k : ℚ) = (k : ℤ) := by
  simp [pyInt]

theorem natCast_div_ten_mul_ten (k : ℕ) : ((k : ℚ) / 10) * 10 = (k : ℚ) := by
  field_simp

/-- The fixed-point round trip for the shared `_set_current_level` body,
on a faithful device: the set call returns `k / 10` and the current-level
register afterwards reads back as `k`. -/
theorem setCurrentLevelRaw_roundtrip (mt : Laser.ModuleType) (d : Laser.Device)
    (hF : d.Faithful) (k : ℕ) (hk : k ≤ 1000) :
    (Laser.setCurrentLevelRaw mt d ((k : ℚ) / 10)).1 = .ok ((k : ℚ) / 10)
    ∧ Laser.getCurrentLevel mt (Laser.setCurrentLevelRaw mt d ((k : ℚ) / 10)).2
        = (k : ℚ) / 10 := by
  have h0 : ¬ ((k : ℚ) / 10 < 0 ∨ 100 < (k : ℚ) / 10) := by
    push_neg
    refine ⟨by positivity, ?_⟩
    rw [div_le_iff₀ (by norm_num : (0:ℚ) < 10)]
    norm_num
    exact_mod_cast hk
  have hpy : pyInt (((k : ℚ) / 10) * 10) = (k : ℤ) := by
    rw [natCast_div_ten_mul_ten]; exact pyInt_natCast k
  have hraw : ((k : ℤ) % 65536).toNat = k := by omega
  have hk65536 : k % 65536 = k := Nat.mod_eq_of_lt (by omega)
  have hs : d.store (Laser.idCURRENT_LEVEL mt) k = k := hF _ _
  simp only [Laser.setCurrentLevelRaw, Laser.registerWriteReadU16,
    Laser.getCurrentLevel, Laser.registerReadU16, if_neg h0, hpy, hraw]
  simp [hs, hk65536, mul_one_div, div_eq_mul_inv]

/-- Same round trip for `set_power_level` on module type 0x60. -/
theorem setPowerLevel_roundtrip (d : Laser.Device)
    (hF : d.Faithful) (k : ℕ) (hk : k ≤ 1000) :
    (Laser.setPowerLevel .M0x60 d ((k : ℚ) / 10)).1 = .ok ((k : ℚ) / 10)
    ∧ Laser.getPowerLevel .M0x60 (Laser.setPowerLevel .M0x60 d ((k : ℚ) / 10)).2
        = .ok ((k : ℚ) / 10) := by
  have h0 : ¬ ((k : ℚ) / 10 < 0 ∨ 100 < (k : ℚ) / 10) := by
    push_neg
    refine ⟨by positivity, ?_⟩
    rw [div_le_iff₀ (by norm_num : (0:ℚ) < 10)]
    norm_num
    exact_mod_cast hk
  have hpy : pyInt (((k : ℚ) / 10) * 10) = (k : ℤ) := by
    rw [natCast_div_ten_mul_ten]; exact pyInt_natCast k
  have hraw : ((k : ℤ) % 65536).toNat = k := by omega
  have hk65536 : k % 65536 = k := Nat.mod_eq_of_lt (by omega)
  have hs : d.store Laser.ID60.POWER_LEVEL k = k := hF _ _
  simp only [Laser.setPowerLevel, Laser.registerWriteReadU16,
    Laser.getPowerLevel, Laser.registerReadU16, if_neg h0, hpy, hraw]
  simp [hs, hk65536, mul_one_div, div_eq_mul_inv]

/-- A faithful laser device whose registers all read 0. -/
def faithfulZeroDev : Laser.Device :=
  { regs := fun _ => 0, store := fun _ v => v, log := [] }

/-- Normal form of `emission _ _ false`: one u8 write of 0 to the emission
register. -/
theorem emission_off (mt : Laser.ModuleType) (d : Laser.Device) :
    Laser.emission mt d false
      = { regs := fun r =>
            if r = Laser.idEMISSION mt then d.store (Laser.idEMISSION mt) 0
            else d.regs r
          store := d.store
          log := d.log ++ [(Laser.idEMISSION mt, 0)] } := by
  simp [Laser.emission, Laser.registerWriteU8]

/-- Normal form of `set_operating_mode`: the emission-off write, the mode
write, and the response check against the device-stored mode value. -/
theorem setOperatingMode_eq (mt : Laser.ModuleType) (d : Laser.Device)
    (m : Laser.OperatingModes) :
    Laser.setOperatingMode mt d m
      = (if d.store (Laser.idMODE mt) m.value % 65536 = m.value then .ok ()
          else .error (.cannotSetMode m),
         { regs := fun r =>
              if r = Laser.idMODE mt then d.store (Laser.idMODE mt) m.value
              else if r = Laser.idEMISSION mt then d.store (Laser.idEMISSION mt) 0
              else d.regs r
           store := d.store
           log := d.log ++ [(Laser.idEMISSION mt, 0),
                            (Laser.idMODE mt, m.value)] }) := by
  have hvz : ((m.value : ℤ) % 65536).toNat = m.value := by cases m <;> decide
  rw [Laser.setOperatingMode, emission_off]
  simp only [Laser.registerWriteReadU16, hvz]
  by_cases hs : d.store (Laser.idMODE mt) m.value % 65536 = m.value
  · simp [hs]
  · simp [hs]

/-! ## Claims -/

/-- C1: for every percentage `p = k / 10` (`k ≤ 1000`, i.e. one-decimal
resolution within `[0, 100]`), on a device that stores written values
faithfully, `set_current_level p` (and `set_feedback_level p`, and
`set_power_level p` on module type 0x60) returns `p`, and the subsequent get
also returns `p`: `int(p * 10)` and `val * 0.1` preserve the fixed-point
scale exactly. -/
theorem c1_level_set_get_roundtrip (mt : Laser.ModuleType) (d : Laser.Device)
    (hF : d.Faithful) (k : ℕ) (hk : k ≤ 1000) :
    ((Laser.setCurrentLevel mt d ((k : ℚ) / 10)).1 = .ok ((k : ℚ) / 10)
      ∧ Laser.getCurrentLevel mt (Laser.setCurrentLevel mt d ((k : ℚ) / 10)).2
          = (k : ℚ) / 10)
    ∧ ((Laser.setFeedbackLevel mt d ((k : ℚ) / 10)).1 = .ok ((k : ℚ) / 10)
      ∧ Laser.getFeedbackLevel mt (Laser.setFeedbackLevel mt d ((k : ℚ) / 10)).2
          = (k : ℚ) / 10)
    ∧ (mt = .M0x60 →
        (Laser.setPowerLevel mt d ((k : ℚ) / 10)).1 = .ok ((k : ℚ) / 10)
        ∧ Laser.getPowerLevel mt (Laser.setPowerLevel mt d ((k : ℚ) / 10)).2
            = .ok ((k : ℚ) / 10)) := by
  refine ⟨setCurrentLevelRaw_roundtrip mt d hF k hk,
    setCurrentLevelRaw_roundtrip mt d hF k hk, ?_⟩
  rintro rfl
  exact setPowerLevel_roundtrip d hF k hk

/-- C1 witness: the round trip at `p = 57.3` on a faithful device of module
type 0x60. -/
theorem c1_witness :
    faithfulZeroDev.Faithful ∧ (573 : ℕ) ≤ 1000
    ∧ (Laser.setCurrentLevel .M0x60 faithfulZeroDev (((573 : ℕ) : ℚ) / 10)).1
        = .ok (((573 : ℕ) : ℚ) / 10)
    ∧ Laser.getCurrentLevel .M0x60
        (Laser.setCurrentLevel .M0x60 faithfulZeroDev (((573 : ℕ) : ℚ) / 10)).2
        = ((573 : ℕ) : ℚ) / 10
    ∧ (Laser.setPowerLevel .M0x60 faithfulZeroDev (((573 : ℕ) : ℚ) / 10)).1
        = .ok (((573 : ℕ) : ℚ) / 10) :=
  ⟨fun _ _ => rfl, by norm_num,
    (c1_level_set_get_roundtrip .M0x60 faithfulZeroDev (fun _ _ => rfl) 573
      (by norm_num)).1.1,
    (c1_level_set_get_roundtrip .M0x60 faithfulZeroDev (fun _ _ => rfl) 573
      (by norm_num)).1.2,
    ((c1_level_set_get_roundtrip .M0x60 faithfulZeroDev (fun _ _ => rfl) 573
      (by norm_num)).2.2 rfl).1⟩

/-- C2: `ensure_interlock_ok` on a register reading 2 returns `True` with the
device untouched (so a second call in the OK state also succeeds with no side
effects); on a register reading 1 it performs exactly one reset write of 1 and
returns `True` iff the post-reset read is 2 (otherwise it raises
`interlockInvalid` with the post-reset status); on any other status it raises
`interlockInvalid` with that status and touches nothing. -/
theorem c2_interlock_resolution (mt : Laser.ModuleType) (d : Laser.Device) :
    (Laser.registerReadU16 d (Laser.idINTERLOCK mt) = 2 →
      Laser.ensureInterlockOk mt d = (.ok true, d)
      ∧ Laser.ensureInterlockOk mt (Laser.ensureInterlockOk mt d).2
          = (.ok true, d))
    ∧ (Laser.registerReadU16 d (Laser.idINTERLOCK mt) = 1 →
      (Laser.ensureInterlockOk mt d).2.log
          = d.log ++ [(Laser.idINTERLOCK mt, 1)]
      ∧ ((Laser.ensureInterlockOk mt d).1 = .ok true
          ↔ Laser.registerReadU16 (Laser.ensureInterlockOk mt d).2
              (Laser.idINTERLOCK mt) = 2)
      ∧ (Laser.registerReadU16 (Laser.ensureInterlockOk mt d).2
            (Laser.idINTERLOCK mt) ≠ 2 →
          (Laser.ensureInterlockOk mt d).1
            = .error (.interlockInvalid
                (Laser.registerReadU16 (Laser.ensureInterlockOk mt d).2
                  (Laser.idINTERLOCK mt)))))
    ∧ (Laser.registerReadU16 d (Laser.idINTERLOCK mt) ≠ 1 →
        Laser.registerReadU16 d (Laser.idINTERLOCK mt) ≠ 2 →
        Laser.ensureInterlockOk mt d
          = (.error (.interlockInvalid
              (Laser.registerReadU16 d (Laser.idINTERLOCK mt))), d)) := by
  refine ⟨fun h2 => ?_, fun h1 => ?_, fun hn1 hn2 => ?_⟩
  · have h : Laser.ensureInterlockOk mt d = (.ok true, d) := by
      simp only [Laser.ensureInterlockOk, h2]
      simp
    exact ⟨h, by rw [h]; rw [h]⟩
  · have hone : ((1 : ℤ) % 65536).toNat = 1 := by decide
    simp only [Laser.registerReadU16] at h1
    simp only [Laser.ensureInterlockOk, Laser.registerWriteReadU16,
      Laser.registerReadU16, hone, h1]
    norm_num
    by_cases hs : d.store (Laser.idINTERLOCK mt) 1 % 65536 = 2
    · simp [hs]
    · simp [hs]
  · simp only [Laser.ensureInterlockOk, if_neg hn2, if_neg hn1]

/-- A laser device whose interlock register reads 2 (OK). -/
def itlOkDev : Laser.Device :=
  { regs := fun _ => 2, store := fun _ v => v, log := [] }

/-- A laser device whose interlock register reads 1 and which accepts the
reset (every write stores 2). -/
def itlResetDev : Laser.Device :=
  { regs := fun _ => 1, store := fun _ _ => 2, log := [] }

/-- A laser device whose interlock register reads 7 (invalid). -/
def itlBadDev : Laser.Device :=
  { regs := fun _ => 7, store := fun _ v => v, log := [] }

/-- C2 witness: all three branches at concrete devices — the OK state is a
no-op twice over, the reset state logs exactly one write of 1 and succeeds
when the post-reset read is 2, and status 7 is rejected as-is. -/
theorem c2_witness :
    Laser.ensureInterlockOk .M0x60 itlOkDev = (.ok true, itlOkDev)
    ∧ Laser.ensureInterlockOk .M0x60
        (Laser.ensureInterlockOk .M0x60 itlOkDev).2 = (.ok true, itlOkDev)
    ∧ (Laser.ensureInterlockOk .M0x60 itlResetDev).2.log
        = itlResetDev.log ++ [(Laser.idINTERLOCK .M0x60, 1)]
    ∧ ((Laser.ensureInterlockOk .M0x60 itlResetDev).1 = .ok true
        ↔ Laser.registerReadU16 (Laser.ensureInterlockOk .M0x60 itlResetDev).2
            (Laser.idINTERLOCK .M0x60) = 2)
    ∧ Laser.ensureInterlockOk .M0x60 itlBadDev
        = (.error (.interlockInvalid 7), itlBadDev) :=
  ⟨((c2_interlock_resolution .M0x60 itlOkDev).1 rfl).1,
    ((c2_interlock_resolution .M0x60 itlOkDev).1 rfl).2,
    ((c2_interlock_resolution .M0x60 itlResetDev).2.1 rfl).1,
    ((c2_interlock_resolution .M0x60 itlResetDev).2.1 rfl).2.1,
    (c2_interlock_resolution .M0x60 itlBadDev).2.2 (by decide) (by decide)⟩

/-- C3: `set_operating_mode m` first writes 0 to the emission register and
only then writes `m.value` to the mode register (the log grows by exactly
those two writes, in that order, on every device); it raises exactly when the
write-response differs from `m.value`; and on a device that stores values
faithfully the call succeeds, emission is off afterwards, and
`get_operating_mode` returns `m`. -/
theorem c3_set_operating_mode_spec (mt : Laser.ModuleType)
    (m : Laser.OperatingModes) :
    (∀ d : Laser.Device,
      (Laser.setOperatingMode mt d m).2.log
          = d.log ++ [(Laser.idEMISSION mt, 0), (Laser.idMODE mt, m.value)]
      ∧ ((Laser.setOperatingMode mt d m).1 = .ok ()
          ↔ d.store (Laser.idMODE mt) m.value % 65536 = m.value))
    ∧ ∀ d : Laser.Device, d.Faithful →
        (Laser.setOperatingMode mt d m).1 = .ok ()
        ∧ Laser.isEmissionOn mt (Laser.setOperatingMode mt d m).2 = false
        ∧ Laser.getOperatingMode mt (Laser.setOperatingMode mt d m).2 = .ok m := by
  have hv : m.value % 65536 = m.value := by cases m <;> decide
  have hne : Laser.idMODE mt ≠ Laser.idEMISSION mt := by cases mt <;> decide
  constructor
  · intro d
    rw [setOperatingMode_eq]
    refine ⟨rfl, ?_⟩
    by_cases hs : d.store (Laser.idMODE mt) m.value % 65536 = m.value
    · simp [hs]
    · simp [hs]
  · intro d hF
    rw [setOperatingMode_eq]
    have hsm : d.store (Laser.idMODE mt) m.value = m.value := hF _ _
    have hse : d.store (Laser.idEMISSION mt) 0 = 0 := hF _ _
    have hofv : Laser.OperatingModes.ofValue m.value = some m := by
      cases m <;> rfl
    have hv256 : m.value % 256 = m.value := by cases m <;> decide
    have hne' : Laser.idEMISSION mt ≠ Laser.idMODE mt := fun h => hne h.symm
    refine ⟨by simp [hsm, hv], ?_, ?_⟩
    · simp [Laser.isEmissionOn, Laser.registerReadU8, hsm, hse, hv, hne']
    · cases mt <;>
        simp [Laser.getOperatingMode, Laser.registerReadU16,
          Laser.registerReadU8, hsm, hse, hv, hv256, hofv]

/-- C3 witness: on a faithful device of module type 0x60, setting
`POWER_LOCK` logs the emission-off write then the mode write, succeeds,
leaves emission off, and `get_operating_mode` reads back `POWER_LOCK`. -/
theorem c3_witness :
    faithfulZeroDev.Faithful
    ∧ (Laser.setOperatingMode .M0x60 faithfulZeroDev .POWER_LOCK).2.log
        = faithfulZeroDev.log
          ++ [(Laser.idEMISSION .M0x60, 0),
              (Laser.idMODE .M0x60, Laser.OperatingModes.POWER_LOCK.value)]
    ∧ (Laser.setOperatingMode .M0x60 faithfulZeroDev .POWER_LOCK).1 = .ok ()
    ∧ Laser.isEmissionOn .M0x60
        (Laser.setOperatingMode .M0x60 faithfulZeroDev .POWER_LOCK).2 = false
    ∧ Laser.getOperatingMode .M0x60
        (Laser.setOperatingMode .M0x60 faithfulZeroDev .POWER_LOCK).2
        = .ok .POWER_LOCK :=
  ⟨fun _ _ => rfl,
    ((c3_set_operating_mode_spec .M0x60 .POWER_LOCK).1 faithfulZeroDev).1,
    ((c3_set_operating_mode_spec .M0x60 .POWER_LOCK).2 faithfulZeroDev
      (fun _ _ => rfl)).1,
    ((c3_set_operating_mode_spec .M0x60 .POWER_LOCK).2 faithfulZeroDev
      (fun _ _ => rfl)).2.1,
    ((c3_set_operating_mode_spec .M0x60 .POWER_LOCK).2 faithfulZeroDev
      (fun _ _ => rfl)).2.2⟩

/-- C4: a laser constructed against a device reporting module type 0x88 (with
a matching serial) exposes exactly the two modes Constant current and Power
lock; yet `enable_modulated_current_mode` still writes `MODULATED_CURRENT`
(value 2) to the mode register on every device — no client-side gating — and
`is_modulated_current_mode` returns true exactly when the mode register the
device actually stores reads (as u8) 2. -/
theorem c4_module_0x88_modes :
    Laser.superKInit "X123" "X123" 0x88 = .ok .M0x88
    ∧ Laser.getOperatingModes .M0x88
        = [("Constant current", .CONSTANT_CURRENT), ("Power lock", .POWER_LOCK)]
    ∧ (∀ d : Laser.Device,
        (Laser.enableModulatedCurrentMode .M0x88 d).2.log
          = d.log ++ [(Laser.ID88.EMISSION, 0), (Laser.ID88.MODE, 2)])
    ∧ (∀ d : Laser.Device,
        Laser.isModulatedCurrentMode .M0x88 d = .ok true
          ↔ d.regs Laser.ID88.MODE % 256 = 2) := by
  refine ⟨rfl, rfl, fun d => ?_, fun d => ?_⟩
  · rw [Laser.enableModulatedCurrentMode, setOperatingMode_eq]
    rfl
  · simp only [Laser.isModulatedCurrentMode, Laser.getOperatingMode,
      Laser.registerReadU8, Laser.idMODE]
    rcases hlt : d.regs Laser.ID88.MODE % 256 with _ | _ | _ | _ | _ | n <;>
      simp [Laser.OperatingModes.ofValue, Except.map]

/-- C4 witness: on a device whose mode register reads 2, the modulated-current
write is logged and `is_modulated_current_mode` is true; with register 0 it is
not 2, so the predicate is false by the same equivalence. -/
theorem c4_witness :
    (Laser.enableModulatedCurrentMode .M0x88 itlOkDev).2.log
        = itlOkDev.log ++ [(Laser.ID88.EMISSION, 0), (Laser.ID88.MODE, 2)]
    ∧ (Laser.isModulatedCurrentMode .M0x88 itlOkDev = .ok true
        ↔ itlOkDev.regs Laser.ID88.MODE % 256 = 2) :=
  ⟨c4_module_0x88_modes.2.2.1 itlOkDev, c4_module_0x88_modes.2.2.2 itlOkDev⟩

/-- C5 counterexample: on module type 0x88, `set_power_level (-1)` raises the
"does not support power levels" error, not a range error, so the claim as
stated (every out-of-range level call raises a range error) fails there. -/
theorem c5_counterexample :
    (Laser.setPowerLevel .M0x88 faithfulZeroDev (-1)).1
        = .error .powerLevelsUnsupported
    ∧ (Laser.setPowerLevel .M0x88 faithfulZeroDev (-1)).1
        ≠ .error (.levelOutOfRange (-1) 0 100) := by
  constructor
  · rfl
  · intro h
    have : Laser.Err.powerLevelsUnsupported
        = Laser.Err.levelOutOfRange (-1) 0 100 := by
      have h0 : (Laser.setPowerLevel .M0x88 faithfulZeroDev (-1)).1
          = .error .powerLevelsUnsupported := rfl
      exact Except.error.inj (h0.symm.trans h)
    exact absurd this (by simp)

/-- C5 (amended): for every `p` with `p < 0` or `p > 100`,
`set_current_level p` and `set_feedback_level p` (on either module type) and
`set_power_level p` on module type 0x60 raise the range error carrying `p`
and the range `[0, 100]` with the device untouched (no register write);
`set_power_level p` on module type 0x88 instead raises the unsupported-power
error, also with the device untouched. -/
theorem c5_level_reject_amended (mt : Laser.ModuleType) (d : Laser.Device)
    (p : ℚ) (hp : p < 0 ∨ 100 < p) :
    Laser.setCurrentLevel mt d p = (.error (.levelOutOfRange p 0 100), d)
    ∧ Laser.setFeedbackLevel mt d p = (.error (.levelOutOfRange p 0 100), d)
    ∧ Laser.setPowerLevel .M0x60 d p = (.error (.levelOutOfRange p 0 100), d)
    ∧ Laser.setPowerLevel .M0x88 d p = (.error .powerLevelsUnsupported, d) := by
  refine ⟨?_, ?_, ?_, rfl⟩
  · rw [Laser.setCurrentLevel, Laser.setCurrentLevelRaw, if_pos hp]
  · rw [Laser.setFeedbackLevel, Laser.setCurrentLevelRaw, if_pos hp]
  · rw [Laser.setPowerLevel, if_neg (by simp), if_pos hp]

/-- C5 witness: the amended rejection at `p = 100.1` (out of range by one
resolution step). -/
theorem c5_witness :
    ((1001 : ℚ) / 10 < 0 ∨ 100 < (1001 : ℚ) / 10)
    ∧ Laser.setCurrentLevel .M0x60 faithfulZeroDev ((1001 : ℚ) / 10)
        = (.error (.levelOutOfRange ((1001 : ℚ) / 10) 0 100), faithfulZeroDev)
    ∧ Laser.setPowerLevel .M0x60 faithfulZeroDev ((1001 : ℚ) / 10)
        = (.error (.levelOutOfRange ((1001 : ℚ) / 10) 0 100), faithfulZeroDev) :=
  ⟨Or.inr (by norm_num),
    (c5_level_reject_amended .M0x60 faithfulZeroDev ((1001 : ℚ) / 10)
      (Or.inr (by norm_num))).1,
    (c5_level_reject_amended .M0x60 faithfulZeroDev ((1001 : ℚ) / 10)
      (Or.inr (by norm_num))).2.2.1⟩

/-- A monochromator device whose set commands are obeyed exactly, except that
the wavelength encoder settles 0.001 nm above the requested value. -/
def monoDev : Mono.Device :=
  { slitWidth := fun _ => 100
    slitStore := fun _ um => um
    wavelength := 0
    wavelengthAfterMove := fun q => q + 1/1000
    filterPos := 1
    filterStore := fun p => p
    grating := 1
    gratingStore := fun p => p
    log := [] }

/-- A filter-wheel device reporting 12 positions. -/
def wheelDev12 : Wheel.Device :=
  { positionCount := 12, pos := 1, posAfterMove := fun p => p, log := [] }

/-- The wheel wrapper for a 12-position device with the default OD map. -/
def wheel12 : Wheel.FW212CNEB :=
  { maxPosition := 12, odMap := Wheel.defaultFilters }

/-- C6: every position outside its documented bounds — `[1, 6]` for the
monochromator filter wheel, `[1, 3]` for the grating, `[1, max_position]`
for the ND filter wheel — raises a range error with the device untouched
(no command issued). -/
theorem c6_position_reject :
    (∀ (d : Mono.Device) (p : ℤ), ¬ (1 ≤ p ∧ p ≤ 6) →
        Mono.setFilterPosition d p = (.error (.filterPositionOutOfRange p), d))
    ∧ (∀ (d : Mono.Device) (p : ℤ), ¬ (1 ≤ p ∧ p ≤ 3) →
        Mono.setGratingPosition d p
          = (.error (.gratingPositionOutOfRange p), d))
    ∧ (∀ (w : Wheel.FW212CNEB) (d : Wheel.Device) (p : ℤ),
        ¬ (1 ≤ p ∧ p ≤ (w.maxPosition : ℤ)) →
        Wheel.setPosition w d p
          = (.error (.positionOutOfRange p w.maxPosition), d)) := by
  refine ⟨fun d p h => ?_, fun d p h => ?_, fun w d p h => ?_⟩
  · simp only [Mono.setFilterPosition]
    rw [if_pos h]
  · simp only [Mono.setGratingPosition]
    rw [if_pos h]
  · simp only [Wheel.setPosition]
    rw [if_pos h]

/-- C6 witness: filter position 7, grating position 0 and wheel position 13
(on a 12-position wheel) are all rejected with the device untouched. -/
theorem c6_witness :
    (¬ ((1 : ℤ) ≤ 7 ∧ (7 : ℤ) ≤ 6))
    ∧ Mono.setFilterPosition monoDev 7
        = (.error (.filterPositionOutOfRange 7), monoDev)
    ∧ Mono.setGratingPosition monoDev 0
        = (.error (.gratingPositionOutOfRange 0), monoDev)
    ∧ Wheel.setPosition wheel12 wheelDev12 13
        = (.error (.positionOutOfRange 13 12), wheelDev12) :=
  ⟨by decide,
    c6_position_reject.1 monoDev 7 (by decide),
    c6_position_reject.2.1 monoDev 0 (by decide),
    c6_position_reject.2.2 wheel12 wheelDev12 13 (by decide)⟩

/-- Normal form of `_set_slit_width` on an in-range width. -/
theorem setSlitWidthRaw_ok (d : Mono.Device) (port : ℕ) (um : ℤ)
    (h : 10 ≤ um ∧ um ≤ 3000) :
    Mono.setSlitWidthRaw d port um
      = (.ok (),
         { d with
            slitWidth := fun p =>
              if p = port then d.slitStore port um else d.slitWidth p
            log := d.log ++ [.setSlitWidth port um] }) := by
  simp only [Mono.setSlitWidthRaw]
  rw [if_neg (not_not_intro h)]

/-- C7: an entrance- or exit-slit width outside `[10, 3000]` is rejected with
the device untouched; an in-range width is written (the command is logged),
read back, and the call returns the width exactly when the device stored it
unchanged — any mismatch raises the assertion error instead of being
accepted. -/
theorem c7_slit_width_spec (d : Mono.Device) (um : ℤ) :
    (¬ (10 ≤ um ∧ um ≤ 3000) →
        Mono.setFrontEntranceSlitWidth d um
            = (.error (.slitWidthOutOfRange um), d)
        ∧ Mono.setFrontExitSlitWidth d um
            = (.error (.slitWidthOutOfRange um), d))
    ∧ ((10 ≤ um ∧ um ≤ 3000) →
        ((Mono.setFrontEntranceSlitWidth d um).2.log
            = d.log ++ [.setSlitWidth Mono.FRONT_ENTRANCE um]
          ∧ ((Mono.setFrontEntranceSlitWidth d um).1 = .ok um
              ↔ d.slitStore Mono.FRONT_ENTRANCE um = um)
          ∧ (d.slitStore Mono.FRONT_ENTRANCE um ≠ um →
              (Mono.setFrontEntranceSlitWidth d um).1 = .error .assertFailed))
        ∧ ((Mono.setFrontExitSlitWidth d um).2.log
            = d.log ++ [.setSlitWidth Mono.FRONT_EXIT um]
          ∧ ((Mono.setFrontExitSlitWidth d um).1 = .ok um
              ↔ d.slitStore Mono.FRONT_EXIT um = um)
          ∧ (d.slitStore Mono.FRONT_EXIT um ≠ um →
              (Mono.setFrontExitSlitWidth d um).1 = .error .assertFailed))) := by
  constructor
  · intro h
    have he : Mono.setSlitWidthRaw d Mono.FRONT_ENTRANCE um
        = (.error (.slitWidthOutOfRange um), d) := by
      simp only [Mono.setSlitWidthRaw]
      rw [if_pos h]
    have hx : Mono.setSlitWidthRaw d Mono.FRONT_EXIT um
        = (.error (.slitWidthOutOfRange um), d) := by
      simp only [Mono.setSlitWidthRaw]
      rw [if_pos h]
    constructor
    · simp [Mono.setFrontEntranceSlitWidth, he]
    · simp [Mono.setFrontExitSlitWidth, hx]
  · intro h
    constructor
    · simp only [Mono.setFrontEntranceSlitWidth,
        setSlitWidthRaw_ok d Mono.FRONT_ENTRANCE um h,
        Mono.getFrontEntranceSlitWidth]
      by_cases hs : d.slitStore Mono.FRONT_ENTRANCE um = um
      · simp [hs]
      · simp [hs]
    · simp only [Mono.setFrontExitSlitWidth,
        setSlitWidthRaw_ok d Mono.FRONT_EXIT um h,
        Mono.getFrontExitSlitWidth]
      by_cases hs : d.slitStore Mono.FRONT_EXIT um = um
      · simp [hs]
      · simp [hs]

/-- C7 witness: width 5 is rejected on the untouched device; width 100 on a
device that stores widths exactly is logged and returned unchanged. -/
theorem c7_witness :
    (¬ ((10 : ℤ) ≤ 5 ∧ (5 : ℤ) ≤ 3000))
    ∧ Mono.setFrontEntranceSlitWidth monoDev 5
        = (.error (.slitWidthOutOfRange 5), monoDev)
    ∧ ((10 : ℤ) ≤ 100 ∧ (100 : ℤ) ≤ 3000)
    ∧ (Mono.setFrontEntranceSlitWidth monoDev 100).2.log
        = monoDev.log ++ [.setSlitWidth Mono.FRONT_ENTRANCE 100]
    ∧ ((Mono.setFrontEntranceSlitWidth monoDev 100).1 = .ok 100
        ↔ monoDev.slitStore Mono.FRONT_ENTRANCE 100 = 100) :=
  ⟨by decide,
    ((c7_slit_width_spec monoDev 5).1 (by decide)).1,
    by decide,
    ((c7_slit_width_spec monoDev 100).2 (by decide)).1.1,
    ((c7_slit_width_spec monoDev 100).2 (by decide)).1.2.1⟩

/-- C8: `set_wavelength nm` rounds `nm` to 3 decimal places (Python `round`,
half to even); if the rounded value lies outside `[-2800, 2800]` it raises
the range error (carrying the original `nm`) with the device untouched;
otherwise it transmits the rounded value (the command is logged) and returns
the device's own encoder wavelength after the move, with no comparison
against the transmitted value. -/
theorem c8_set_wavelength_spec (d : Mono.Device) (nm : ℚ) :
    (¬ (-2800 ≤ round3 nm ∧ round3 nm ≤ 2800) →
        Mono.setWavelength d nm = (.error (.wavelengthOutOfRange nm), d))
    ∧ ((-2800 ≤ round3 nm ∧ round3 nm ≤ 2800) →
        (Mono.setWavelength d nm).2.log
            = d.log ++ [.setWavelengthNm (round3 nm)]
        ∧ (Mono.setWavelength d nm).1
            = .ok (d.wavelengthAfterMove (round3 nm))) := by
  constructor
  · intro h
    simp only [Mono.setWavelength]
    rw [if_pos h]
  · intro h
    simp only [Mono.setWavelength, Mono.getWavelength]
    rw [if_neg (not_not_intro h)]
    exact ⟨rfl, rfl⟩

/-- C8 witness: `set_wavelength 500.12345` transmits the rounded value
500.123, and returns the device's encoder value 500.124, which differs from
the transmitted value without raising an error. -/
theorem c8_witness :
    round3 (500.12345 : ℚ) = (500.123 : ℚ)
    ∧ ((-2800 : ℚ) ≤ round3 (500.12345 : ℚ) ∧ round3 (500.12345 : ℚ) ≤ 2800)
    ∧ (Mono.setWavelength monoDev (500.12345 : ℚ)).2.log
        = monoDev.log ++ [.setWavelengthNm (round3 (500.12345 : ℚ))]
    ∧ (Mono.setWavelength monoDev (500.12345 : ℚ)).1
        = .ok (monoDev.wavelengthAfterMove (round3 (500.12345 : ℚ)))
    ∧ monoDev.wavelengthAfterMove (round3 (500.12345 : ℚ))
        ≠ round3 (500.12345 : ℚ) :=
  ⟨by norm_num [round3, pyRound], by norm_num [round3, pyRound],
    ((c8_set_wavelength_spec monoDev (500.12345 : ℚ)).2
      (by norm_num [round3, pyRound])).1,
    ((c8_set_wavelength_spec monoDev (500.12345 : ℚ)).2
      (by norm_num [round3, pyRound])).2,
    by norm_num [monoDev, round3, pyRound]⟩

/-- C9: constructing the ND filter wheel succeeds exactly when the effective
optical-density map (the user-defined one, or the 12-entry default when none
is given) has exactly one entry per device-reported position: a length match
yields the wrapper, a mismatch raises the cardinality error carrying both
counts. -/
theorem c9_fw_init_cardinality (d : Wheel.Device)
    (userFilters : List (ℕ × Option ℚ)) :
    ((if userFilters = [] then Wheel.defaultFilters else userFilters).length
        = d.positionCount →
      Wheel.fwInit d userFilters
        = .ok { maxPosition := d.positionCount
                odMap := if userFilters = [] then Wheel.defaultFilters
                  else userFilters })
    ∧ ((if userFilters = [] then Wheel.defaultFilters else userFilters).length
        ≠ d.positionCount →
      Wheel.fwInit d userFilters
        = .error (.cardinalityMismatch
            (if userFilters = [] then Wheel.defaultFilters
              else userFilters).length
            d.positionCount)) := by
  constructor
  · intro h
    simp only [Wheel.fwInit]
    rw [if_neg (not_not_intro h)]
  · intro h
    simp only [Wheel.fwInit]
    rw [if_pos h]

/-- C9 witness: a 12-position device with an 11-entry map fails construction
with the cardinality-mismatch error, while the default 12-entry map succeeds. -/
theorem c9_witness :
    (if Wheel.defaultFilters.take 11 = [] then Wheel.defaultFilters
        else Wheel.defaultFilters.take 11).length ≠ wheelDev12.positionCount
    ∧ Wheel.fwInit wheelDev12 (Wheel.defaultFilters.take 11)
        = .error (.cardinalityMismatch 11 12)
    ∧ Wheel.fwInit wheelDev12 []
        = .ok { maxPosition := 12, odMap := Wheel.defaultFilters } :=
  ⟨by decide,
    (c9_fw_init_cardinality wheelDev12 (Wheel.defaultFilters.take 11)).2
      (by decide),
    (c9_fw_init_cardinality wheelDev12 []).1 (by decide)⟩

/-- C10: on module type 0x88, `get_power_level` and `set_power_level p` (for
every argument `p`, in or out of range) raise the "does not support power
levels" error before any range validation or register access — the device is
returned untouched. -/
theorem c10_power_unsupported_0x88 (d : Laser.Device) (p : ℚ) :
    Laser.getPowerLevel .M0x88 d = .error .powerLevelsUnsupported
    ∧ Laser.setPowerLevel .M0x88 d p
        = (.error .powerLevelsUnsupported, d) :=
  ⟨rfl, rfl⟩

/-- C10 witness: the unsupported error at the wildly out-of-range level
12345, with the device untouched. -/
theorem c10_witness :
    Laser.getPowerLevel .M0x88 faithfulZeroDev
        = .error .powerLevelsUnsupported
    ∧ Laser.setPowerLevel .M0x88 faithfulZeroDev 12345
        = (.error .powerLevelsUnsupported, faithfulZeroDev) :=
  ⟨(c10_power_unsupported_0x88 faithfulZeroDev 12345).1,
    (c10_power_unsupported_0x88 faithfulZeroDev 12345).2⟩

end SuperKMono
